import Mathlib

/-!
Verification development for the depression-detection pipeline
(`server/ai_models/core`).  Python floats are modelled as exact rationals
(`ℚ`), Python dicts as association lists or total functions with the same
default behaviour as `dict.get`, and `collections.deque(maxlen = W)` as a
list that keeps its last `W` elements.
-/

/-- Embeds `deque(maxlen := W)` after `append x`: keep the last `W` elements. -/
def pushWindow {α : Type} (W : ℕ) (w : List α) (x : α) : List α :=
  (w ++ [x]).drop ((w ++ [x]).length - W)

/-- Embeds `sum(history) >= len(history) // 2` on a window of Python booleans
(the majority-vote smoothing used by both AU detectors). -/
def majorityVote (w : List Bool) : Bool :=
  decide (w.length / 2 ≤ w.count true)

/-- Embeds `np.mean` of a list of rationals (never applied to `[]` in the embedded
code paths). -/
def meanQ (l : List ℚ) : ℚ :=
  l.sum / (l.length : ℚ)

/-- Association-list lookup (`dict.get(key)`), by string equality. -/
def assocLookup {α : Type} : List (String × α) → String → Option α
  | [], _ => none
  | p :: rest, k => if p.1 = k then some p.2 else assocLookup rest k

namespace AUDetector

/-! Embeds `au_detector.py`, class `AUDetector` — the per-AU body of `detect`. -/

/-- Embeds `AUDetector.detect`, intensity computation (lines 110–114):
`(feature - baseline) / abs(baseline)` guarded only against a baseline of
exactly zero. -/
def intensity (feature baseline : ℚ) : ℚ :=
  if baseline ≠ 0 then (feature - baseline) / |baseline| else 0

/-- Embeds `AUDetector.detect`, per-AU step: raw activation by threshold, then
push into the five-frame history and majority-vote (lines 110–124).
Returns (smoothed activation, raw intensity, new history). -/
def detectStep (threshold feature baseline : ℚ) (hist : List Bool) :
    Bool × ℚ × List Bool :=
  let i := intensity feature baseline
  let activated := decide (threshold < |i|)
  let hist' := pushWindow 5 hist activated
  (majorityVote hist', i, hist')

end AUDetector

namespace AdvancedAUDetector

/-! Embeds `au_detector_advanced.py`, class `AdvancedAUDetector`. -/

/-- Embeds `AdvancedAUDetector.detect` (lines 139–142): relative change, computed
only when `abs(baseline) > 1e-6`, otherwise `0.0`. -/
def relativeChange (feature baseline : ℚ) : ℚ :=
  if 1 / 1000000 < |baseline| then (feature - baseline) / |baseline| else 0

/-- Embeds `AdvancedAUDetector._calculate_intensity`: the monotone staircase
mapping `abs(relative_change)` to a 0–5 intensity level. -/
def calculateIntensity (relChange : ℚ) : ℚ :=
  if relChange < 1/50 then 0
  else if relChange < 1/20 then 1
  else if relChange < 1/10 then 2
  else if relChange < 1/5 then 3
  else if relChange < 7/20 then 4
  else 5

/-- Result of one per-AU step of `AdvancedAUDetector.detect`. -/
structure StepResult where
  activated : Bool
  intensity : ℚ
  rawIntensity : ℚ
  relChange : ℚ
  intHist : List ℚ
  actHist : List Bool
  deriving Repr, DecidableEq

/-- Embeds `AdvancedAUDetector.detect`, per-AU step (lines 136–168): relative
change against the baseline, staircase intensity, threshold activation,
then mean / majority-vote smoothing over the `smoothing_window`-sized
histories.  The dict entry reports the smoothed values. -/
def detectStep (W : ℕ) (threshold feature baseline : ℚ)
    (intHist : List ℚ) (actHist : List Bool) : StepResult :=
  let rel := relativeChange feature baseline
  let rawInt := calculateIntensity |rel|
  let isActivated := decide (threshold < |rel|)
  let intHist' := pushWindow W intHist rawInt
  let actHist' := pushWindow W actHist isActivated
  { activated := majorityVote actHist'
    intensity := meanQ intHist'
    rawIntensity := rawInt
    relChange := rel
    intHist := intHist'
    actHist := actHist' }

/-- Embeds `AdvancedAUDetector._adapt_thresholds` for one AU: when at least 100
frames were seen, nudge the threshold by ×1.01 (activation rate > 0.5) or
×0.99 (rate < 0.05) and clip to `[0.5, 2] × initial`. -/
def adaptThreshold (initial current : ℚ) (frameCount activationCount : ℕ) : ℚ :=
  if frameCount < 100 then current
  else
    let rate : ℚ := (activationCount : ℚ) / (frameCount : ℚ)
    let nudged :=
      if 1/2 < rate then current * (101/100)
      else if rate < 1/20 then current * (99/100)
      else current
    max (initial * (1/2)) (min nudged (initial * 2))

end AdvancedAUDetector

namespace EmotionRecognizer

/-! Embeds `emotion_recognizer.py`, class `EmotionRecognizer`.  AU activation
dicts become total functions `String → Bool` (a missing key reads as
`False`, exactly like `dict.get`). -/

/-- Embeds `EmotionRecognizer.EMOTIONS`, in the source order. -/
def EMOTIONS : List String :=
  ["angry", "disgust", "fear", "happy", "sad", "surprise", "neutral"]

/-- Sum of a score / probability dict over the emotion keys. -/
def sumOver (l : List String) (f : String → ℚ) : ℚ :=
  (l.map f).sum

/-- Embeds `scores[key] += v` on a score dict. -/
def addScore (f : String → ℚ) (key : String) (v : ℚ) : String → ℚ :=
  fun x => if x = key then f x + v else f x

/-- Embeds `expression_emotion_map` of `_recognize_by_au`. -/
def expressionEmotionMap (expr : String) : Option String :=
  ([("genuine_smile", "happy"), ("fake_smile", "neutral"),
    ("sadness", "sad"), ("worry", "sad"), ("anger", "angry"),
    ("disgust", "disgust"), ("fear", "fear"),
    ("surprise", "surprise")] |> fun m => assocLookup m expr)

/-- The micro-expression loop of `_recognize_by_au`: each recognised
expression adds `0.3` to its mapped emotion. -/
def microScores : List String → (String → ℚ)
  | [] => fun _ => 0
  | expr :: rest =>
    match expressionEmotionMap expr with
    | some mapped => addScore (microScores rest) mapped (3/10)
    | none => microScores rest

/-- Number of `True`s among a list of (defaulted) activation lookups, as in
`sum([...])` over Python booleans. -/
def boolSum (l : List Bool) : ℕ :=
  l.count true

/-- The AU-combination rules of `_recognize_by_au` (lines 158–203),
applied on top of the micro-expression scores. -/
def auScores (act : String → Bool) (micro : List String) : String → ℚ :=
  let s0 := microScores micro
  let s1 :=
    if act ("AU6") && act ("AU12") then addScore s0 ("happy") (2/5)
    else if act ("AU12") then addScore s0 ("happy") (1/5)
    else s0
  let s2 := if act ("AU1") && act ("AU15") then addScore s1 ("sad") (2/5) else s1
  let s3 := if act ("AU4") then addScore s2 ("sad") (1/10) else s2
  let s4 := if act ("AU4") && act ("AU7") then addScore s3 ("angry") (2/5) else s3
  let s5 :=
    if act ("AU9") && act ("AU7") then addScore s4 ("disgust") (2/5)
    else if act ("AU9") then addScore s4 ("disgust") (1/5)
    else s4
  let fearCount := boolSum [act ("AU1"), act ("AU2"), act ("AU5"), act ("AU20")]
  let s6 :=
    if 3 ≤ fearCount then addScore s5 ("fear") (2/5)
    else if 2 ≤ fearCount then addScore s5 ("fear") (1/5)
    else s5
  let surpriseCount := boolSum [act ("AU1"), act ("AU2"), act ("AU5"), act ("AU26")]
  if 3 ≤ surpriseCount then addScore s6 ("surprise") (2/5)
  else if 2 ≤ surpriseCount then addScore s6 ("surprise") (1/5)
  else s6

/-- Embeds `_recognize_by_au`, normalisation step (lines 205–212): divide by the
total when it is positive, otherwise the fixed neutral distribution. -/
def auProbabilities (act : String → Bool) (micro : List String) : String → ℚ :=
  let scores := auScores act micro
  let total := sumOver EMOTIONS scores
  if 0 < total then fun e => scores e / total
  else fun e => if e = "neutral" then 1 else 0

/-- Embeds `_recognize_by_simple_rule`, label from the mean image brightness
(lines 235–240). -/
def simpleRuleEmotion (meanBrightness : ℚ) : String :=
  if 150 < meanBrightness then ("happy")
  else if meanBrightness < 80 then ("sad")
  else ("neutral")

/-- Embeds `dict[key] = v` on a probability dict. -/
def setScore (f : String → ℚ) (key : String) (v : ℚ) : String → ℚ :=
  fun x => if x = key then v else f x

/-- Embeds `_recognize_by_simple_rule`, probability dict (lines 242–244):
`probabilities[emotion] = 0.6`, then
`probabilities['neutral'] = 0.4 - probabilities[emotion] * 0.4`
(which overwrites the 0.6 when the label is itself `'neutral'`). -/
def simpleRuleProbabilities (meanBrightness : ℚ) : String → ℚ :=
  let emotion := simpleRuleEmotion meanBrightness
  let p0 : String → ℚ := fun _ => 0
  let p1 := setScore p0 emotion (3/5)
  setScore p1 ("neutral") (2/5 - p1 emotion * (2/5))

/-- Embeds `_fuse_with_au` (lines 258–266): convex combination of the model
distribution (weight 0.7) and the AU-rule distribution (weight 0.3). -/
def fusedProbabilities (modelProbs : String → ℚ) (act : String → Bool)
    (micro : List String) : String → ℚ :=
  fun e => modelProbs e * (7/10) + auProbabilities act micro e * (3/10)

end EmotionRecognizer

/-- Last `n` elements of a list (`list[-n:]`). -/
def takeLast {α : Type} (n : ℕ) (l : List α) : List α :=
  l.drop (l.length - n)

namespace GenuineEmotionDetector

/-! Embeds `genuine_emotion_detector.py`, class `GenuineEmotionDetector`. -/

/-- One entry of the `au_results` dict (`{'active': …, 'intensity': …}`). -/
structure AUEntry where
  active : Bool
  intensity : ℚ
  deriving Repr, DecidableEq

/-- Embeds `au_results.get(name, {}).get('active', False)`. -/
def getActive (au : List (String × AUEntry)) (name : String) : Bool :=
  match assocLookup au name with
  | some e => e.active
  | none => false

/-- Embeds `au_results.get(name, {}).get('intensity', 0.0)`. -/
def getIntensity (au : List (String × AUEntry)) (name : String) : ℚ :=
  match assocLookup au name with
  | some e => e.intensity
  | none => 0

/-- Embeds `np.abs(np.diff(series))`. -/
def absDiffs : List ℚ → List ℚ
  | a :: b :: rest => |b - a| :: absDiffs (b :: rest)
  | _ => []

/-- Embeds `np.max` over a list of non-negative rationals (0 on `[]`, mirroring
the code's `if len(changes) > 0 else 0.0` guard). -/
def maxList (l : List ℚ) : ℚ :=
  l.foldr max 0

/-- Embeds `_check_onset_naturalness` (and `_check_offset_naturalness`, which
delegates to it): fewer than 10 recorded intensities count as natural,
otherwise the largest per-frame delta of the last 10 frames must stay
below the onset threshold 0.3. -/
def onsetNaturalness (hist : List ℚ) : Bool :=
  if hist.length < 10 then true
  else decide (maxList (absDiffs (takeLast 10 hist)) < 3/10)

/-- Result of `_analyze_smile_genuineness`. -/
structure SmileResult where
  isGenuine : Bool
  confidence : ℚ
  genuinenessScore : ℚ
  fakeProbability : ℚ
  duchenneSmile : Bool
  au6Au12Ratio : ℚ
  durationAppropriate : Bool
  onsetNatural : Bool
  offsetNatural : Bool
  deriving Repr, DecidableEq

/-- Embeds `_analyze_smile_genuineness` (lines 157–235): Duchenne check,
AU6/AU12 intensity ratio, duration plausibility, onset/offset
naturalness, and the weighted genuineness score with its 0.6 decision
threshold. -/
def analyzeSmileGenuineness (au : List (String × AUEntry))
    (emotionDuration : ℚ) (au12Hist : List ℚ) : SmileResult :=
  let au6Active := getActive au ("AU6")
  let au12Active := getActive au ("AU12")
  let bothActive := au6Active && au12Active
  let au6Int := getIntensity au ("AU6")
  let au12Int := getIntensity au ("AU12")
  let ratio := if 1/2 < au12Int then au6Int / (au12Int + 1/1000000) else 0
  let durationOk :=
    if 0 < emotionDuration then
      decide (1/2 ≤ emotionDuration ∧ emotionDuration ≤ 4)
    else true
  let onset := onsetNaturalness au12Hist
  let offset := onsetNaturalness au12Hist
  let score :=
    (if bothActive then 2/5 else if au12Active then 1/5 else 0)
      + (if 3/5 < ratio then 3/10 else if 3/10 < ratio then 3/20 else 0)
      + (if durationOk then (1:ℚ)/10 else 0)
      + (if onset then (1:ℚ)/10 else 0)
      + (if offset then (1:ℚ)/10 else 0)
  { isGenuine := decide (3/5 ≤ score)
    confidence := min (19/20) (score + 1/10)
    genuinenessScore := score
    fakeProbability := 1 - score
    duchenneSmile := bothActive
    au6Au12Ratio := ratio
    durationAppropriate := durationOk
    onsetNatural := onset
    offsetNatural := offset }

/-- One micro-expression event: `micro.get('emotion', 'neutral')`. -/
structure MicroEvent where
  emotion : String
  deriving Repr, DecidableEq

/-- The negative emotions looked for inside micro-expressions
(`['sadness', 'fear', 'anger']`). -/
def negativeMicroKeys : List String :=
  ["sadness", "fear", "anger"]

/-- Embeds `micro_emotion_counts[e]`. -/
def countEmotion (micros : List MicroEvent) (e : String) : ℕ :=
  micros.countP (fun m => m.emotion == e)

/-- Result of `detect_concealed_depression`. -/
structure ConcealedResult where
  detected : Bool
  inconsistencyScore : ℚ
  macroEmotion : String
  hiddenEmotions : List String
  riskLevel : String
  deriving Repr, DecidableEq

/-- Embeds `GenuineEmotionDetector.detect_concealed_depression`
(lines 404–465): hidden emotions are collected only when the macro label
is exactly `'happiness'` or `'neutral'`, scanning for micro labels
`'sadness'`, `'fear'`, `'anger'`; the inconsistency score is the hidden
fraction of all micro events. -/
def detectConcealedDepression (macroEmotion : String)
    (micros : List MicroEvent) : ConcealedResult :=
  let hidden :=
    if macroEmotion = "happiness" ∨ macroEmotion = "neutral" then
      negativeMicroKeys.filter (fun e => 0 < countEmotion micros e)
    else []
  -- `total_micro = sum(micro_emotion_counts.values())`: every event
  -- contributes exactly one count, so this is the number of events.
  let totalMicro := micros.length
  let hiddenCount := (hidden.map (countEmotion micros)).sum
  let score : ℚ :=
    if 0 < totalMicro then (hiddenCount : ℚ) / (totalMicro : ℚ) else 0
  { detected := !hidden.isEmpty
    inconsistencyScore := score
    macroEmotion := macroEmotion
    hiddenEmotions := hidden
    riskLevel :=
      if 3/5 ≤ score then ("high")
      else if 3/10 ≤ score then ("moderate")
      else ("low") }

end GenuineEmotionDetector

namespace MedicalAssessor

/-! Embeds `clinical_assessor_medical.py`, class `MedicalGradeClinicalAssessor`. -/

/-- The `emotion_result` dict fields read by the assessor. -/
structure EmotionInput where
  emotion : String
  confidence : ℚ
  deriving Repr, DecidableEq

/-- The `genuineness_result` dict fields read by the assessor. -/
structure GenuinenessInput where
  isGenuine : Bool
  fakeProbability : ℚ
  duchenneSmile : Bool
  deriving Repr, DecidableEq

/-- One entry of `au_result['aus']` (`{'active': …, 'intensity': …}`). -/
structure MedAUEntry where
  active : Bool
  intensity : ℚ
  deriving Repr, DecidableEq

/-- The `au_result` dict fields read by the assessor. -/
structure AUInput where
  aus : List (String × MedAUEntry)
  depressionScore : ℚ
  deriving Repr, DecidableEq

/-- The `eye_analysis` dict fields read by the assessor (with the same
defaults the `.get` calls use when a key is supplied). -/
structure EyeInput where
  fatigue : ℚ
  blinkRate : ℚ
  gazeDuration : ℚ
  blinkIrregularity : ℚ
  deriving Repr, DecidableEq

/-- Embeds `au_result.get('aus', {}).get(name, {}).get('active', False)`. -/
def auActive (a : AUInput) (name : String) : Bool :=
  match assocLookup a.aus name with
  | some e => e.active
  | none => false

/-- Embeds `au_result.get('aus', {}).get(name, {}).get('intensity', 0)`. -/
def auIntensity (a : AUInput) (name : String) : ℚ :=
  match assocLookup a.aus name with
  | some e => e.intensity
  | none => 0

/-- Embeds `[au for au, data in aus.items() if data.get('active', False)]`. -/
def activeAUCount (a : AUInput) : ℕ :=
  (a.aus.filter (fun p => p.2.active)).length

/-- Item 1 (`anhedonia`), lines 87–96. -/
def assessAnhedonia (e : EmotionInput) (a : AUInput) (g : GenuinenessInput) : ℕ :=
  min 3 ((if e.emotion = "sad" ∨ e.emotion = "neutral" then 1 else 0)
    + (if g.duchenneSmile then 0 else 1)
    + (if auIntensity a ("AU6") < 3/2 ∧ auIntensity a ("AU12") < 3/2 then 1 else 0))

/-- Item 2 (`depressed_mood`), lines 99–108. -/
def assessDepressedMood (e : EmotionInput) (a : AUInput) : ℕ :=
  let base :=
    if e.emotion = "sad" then 2 else if e.emotion = "neutral" then 1 else 0
  let activeSadAUs :=
    (["AU1", "AU4", "AU15"].filter (fun au => auActive a au)).length
  min 3 (base + if 2 ≤ activeSadAUs then 1 else 0)

/-- Embeds `_assess_sleep_problems`. -/
def assessSleepProblems (eye : EyeInput) : ℕ :=
  min 3 ((if 3/5 < eye.fatigue then 2 else if 3/10 < eye.fatigue then 1 else 0)
    + (if eye.blinkRate < 10 ∨ 30 < eye.blinkRate then 1 else 0))

/-- Embeds `_assess_fatigue`. -/
def assessFatigue (eye : EyeInput) (a : AUInput) : ℕ :=
  min 3 ((if 1/2 < eye.fatigue then 2 else if 3/10 < eye.fatigue then 1 else 0)
    + (if 2 < auIntensity a ("AU43") then 1 else 0))

/-- Embeds `_assess_self_worth`. -/
def assessSelfWorth (eye : EyeInput) (a : AUInput) : ℕ :=
  min 3 ((if 3 < eye.gazeDuration ∨ eye.gazeDuration < 1/2 then 1 else 0)
    + (if 1/2 < a.depressionScore then 1 else 0))

/-- Embeds `_assess_concentration`. -/
def assessConcentration (eye : EyeInput) : ℕ :=
  min 3 ((if 3 < eye.gazeDuration then 1 else 0)
    + (if 1/2 < eye.blinkIrregularity then 1 else 0))

/-- Embeds `_assess_psychomotor`: fewer than three active AUs, and at most two
distinct labels among the last 30 frames of the emotion history (only
checked once at least 30 frames were recorded). -/
def assessPsychomotor (a : AUInput) (emotionHistory : List String) : ℕ :=
  min 3 ((if activeAUCount a < 3 then 1 else 0)
    + (if 30 ≤ emotionHistory.length ∧
          (takeLast 30 emotionHistory).dedup.length ≤ 2 then 1 else 0))

/-- Embeds `_assess_suicidal_risk`. -/
def assessSuicidalRisk (e : EmotionInput) (g : GenuinenessInput)
    (a : AUInput) : ℕ :=
  min 3 ((if e.emotion = "sad" ∧ 4/5 < e.confidence then 1 else 0)
    + (if activeAUCount a = 0 ∧ e.emotion = "neutral" then 1 else 0)
    + (if ¬g.isGenuine ∧ 7/10 < g.fakeProbability then 1 else 0))

/-- The nine PHQ-9 sub-scores of `_calculate_phq9_scores`. -/
structure Scores where
  anhedonia : ℕ
  depressedMood : ℕ
  sleepProblems : ℕ
  fatigue : ℕ
  appetiteChanges : ℕ
  lowSelfWorth : ℕ
  concentrationProblems : ℕ
  psychomotorChanges : ℕ
  suicidalThoughts : ℕ
  deriving Repr, DecidableEq

/-- Embeds `_calculate_phq9_scores`, sub-score part (lines 84–117);
`appetite_changes` is hard-coded to 0. -/
def calculateScores (e : EmotionInput) (a : AUInput) (eye : EyeInput)
    (g : GenuinenessInput) (emotionHistory : List String) : Scores :=
  { anhedonia := assessAnhedonia e a g
    depressedMood := assessDepressedMood e a
    sleepProblems := assessSleepProblems eye
    fatigue := assessFatigue eye a
    appetiteChanges := 0
    lowSelfWorth := assessSelfWorth eye a
    concentrationProblems := assessConcentration eye
    psychomotorChanges := assessPsychomotor a emotionHistory
    suicidalThoughts := assessSuicidalRisk e g a }

/-- Weighted total of `_calculate_phq9_scores` (line 120), using the
`PHQ9_SYMPTOMS` weights. -/
def weightedTotal (s : Scores) : ℚ :=
  (s.anhedonia : ℚ) * (6/5) + (s.depressedMood : ℚ) * (6/5)
    + (s.sleepProblems : ℚ) * 1 + (s.fatigue : ℚ) * 1
    + (s.appetiteChanges : ℚ) * (4/5) + (s.lowSelfWorth : ℚ) * (11/10)
    + (s.concentrationProblems : ℚ) * (9/10)
    + (s.psychomotorChanges : ℚ) * 1 + (s.suicidalThoughts : ℚ) * (3/2)

/-- Embeds `max_weighted = sum(3 * weight)` over the nine symptoms (line 121). -/
def maxWeighted : ℚ :=
  3 * (6/5 + 6/5 + 1 + 1 + 4/5 + 11/10 + 9/10 + 1 + 3/2)

/-- Embeds `total_score = int((weighted_total / max_weighted) * 27)` (line 122);
the quotient is non-negative, so Python `int()` is the floor. -/
def totalScore (s : Scores) : ℕ :=
  (⌊weightedTotal s / maxWeighted * 27⌋).toNat

/-- Embeds `_determine_severity` (lines 194–198): the first `RISK_LEVELS` band
containing the total, in insertion order, with `'minimal'` as fallback. -/
def determineSeverity (total : ℕ) : String :=
  if total ≤ 4 then ("minimal")
  else if 5 ≤ total ∧ total ≤ 9 then ("mild")
  else if 10 ≤ total ∧ total ≤ 14 then ("moderate")
  else if 15 ≤ total ∧ total ≤ 19 then ("moderately_severe")
  else if 20 ≤ total ∧ total ≤ 27 then ("severe")
  else ("minimal")

/-- Embeds `_detect_concealed_depression` of the medical assessor
(lines 212–233): +0.4 only for a macro label of exactly `'happiness'` or
`'neutral'` with at least one micro event labelled `'sadness'`, `'fear'`
or `'anger'`; +0.3 for a non-genuine verdict; plus 0.3 × fake
probability. -/
def detectConcealedScore (e : EmotionInput)
    (micros : List GenuineEmotionDetector.MicroEvent)
    (g : GenuinenessInput) : ℚ :=
  let negativeMicroCount :=
    micros.countP (fun m => m.emotion == "sadness" || m.emotion == "fear"
      || m.emotion == "anger")
  (if (e.emotion = "happiness" ∨ e.emotion = "neutral")
      ∧ 0 < negativeMicroCount then 2/5 else 0)
    + (if g.isGenuine then 0 else 3/10)
    + g.fakeProbability * (3/10)

/-- The crisis-intervention warning appended by
`_generate_recommendations` whenever the suicidal-thoughts sub-score is
at least 1 (line 277–278). -/
def suicideWarning : String :=
  "🚨🚨🚨 检测到自杀倾向,请立即拨打危机干预热线!"

/-- Embeds `_generate_recommendations` (lines 254–280), as the concatenation of
its conditional `append` calls. -/
def generateRecommendations (s : Scores) (severity : String)
    (trend : String) (concealedDetected : Bool) : List String :=
  (if severity = "minimal" then ["✓ 您的心理状态良好,请继续保持积极的生活方式"]
    else if severity = "mild" then ["⚠ 检测到轻度抑郁倾向,建议关注心理健康"]
    else if severity = "moderate" then ["⚠⚠ 检测到中度抑郁倾向,建议尽快寻求帮助"]
    else if severity = "moderately_severe" ∨ severity = "severe" then
      ["🚨 检测到严重抑郁倾向,强烈建议立即就医", "危机干预热线: 400-161-9995 (24小时)"]
    else [])
  ++ (if trend = "worsening" then ["📉 趋势分析: 症状呈恶化趋势,请尽快就医"]
    else if trend = "improving" then ["📈 趋势分析: 症状呈改善趋势,请继续保持"]
    else [])
  ++ (if concealedDetected then ["⚠ 检测到隐匿性抑郁特征,请特别关注"] else [])
  ++ (if 1 ≤ s.suicidalThoughts then [suicideWarning] else [])

end MedicalAssessor

namespace PHQ9Assessor

/-! Embeds `phq9_assessor.py`, class `PHQ9Assessor`. -/

/-- One `emotion_history` record. -/
structure EmotionRecord where
  emotion : String
  confidence : ℚ
  deriving Repr, DecidableEq

/-- One `au_history` record. -/
structure AURecord where
  auActivations : List (String × Bool)
  microExpressions : List String
  deriving Repr, DecidableEq

/-- One `eye_history` record. -/
structure EyeRecord where
  ear : ℚ
  blink : Bool
  timestamp : ℚ
  deriving Repr, DecidableEq

/-- One `temporal_features` record. -/
structure TemporalRecord where
  emotionChangeRate : ℚ
  microExpressionRate : ℚ
  deriving Repr, DecidableEq

/-- Embeds `au_activations.get(name)` treated as a boolean. -/
def actLookup (acts : List (String × Bool)) (name : String) : Bool :=
  match assocLookup acts name with
  | some b => b
  | none => false

/-- Embeds `_assess_anhedonia` (PHQ1). -/
def assessAnhedonia (eh : List EmotionRecord) (ah : List AURecord) : ℕ :=
  let happyRatio : ℚ :=
    (eh.countP (fun r => r.emotion == "happy") : ℚ) / (eh.length : ℚ)
  let genuineSmileCount :=
    ah.countP (fun r => r.microExpressions.contains ("genuine_smile"))
  let smileRatio : ℚ :=
    if ah.length ≠ 0 then (genuineSmileCount : ℚ) / (ah.length : ℚ) else 0
  if happyRatio < 1/20 ∧ smileRatio < 1/50 then 3
  else if happyRatio < 1/10 ∧ smileRatio < 1/20 then 2
  else if happyRatio < 3/20 ∧ smileRatio < 1/10 then 1
  else 0

/-- Embeds `_assess_depressed_mood` (PHQ2). -/
def assessDepressedMood (eh : List EmotionRecord) : ℕ :=
  let sadRatio : ℚ :=
    (eh.countP (fun r => r.emotion == "sad") : ℚ) / (eh.length : ℚ)
  let negativeRatio : ℚ :=
    ((eh.countP (fun r => r.emotion == "sad" || r.emotion == "angry"
      || r.emotion == "fear" || r.emotion == "disgust")) : ℚ) / (eh.length : ℚ)
  if 2/5 < sadRatio ∨ 3/5 < negativeRatio then 3
  else if 1/4 < sadRatio ∨ 9/20 < negativeRatio then 2
  else if 3/20 < sadRatio ∨ 3/10 < negativeRatio then 1
  else 0

/-- Blink rate of an eye history: blinks per minute over the recorded
timestamp span, defaulting to 20 when the span is not positive. -/
def blinkRate (eyh : List EyeRecord) : ℚ :=
  let blinkCount := eyh.countP (fun r => r.blink)
  let firstTs := match eyh with | [] => 0 | r :: _ => r.timestamp
  let lastTs := match eyh.getLast? with | some r => r.timestamp | none => 0
  let durationMinutes := (lastTs - firstTs) / 60
  if 0 < durationMinutes then (blinkCount : ℚ) / durationMinutes else 20

/-- Embeds `_assess_sleep_problems` (PHQ3). -/
def assessSleepProblems (eyh : List EyeRecord) : ℕ :=
  if eyh.length = 0 then 0
  else
    let fatigueRatio : ℚ :=
      (eyh.countP (fun r => decide (r.ear < 9/50)) : ℚ) / (eyh.length : ℚ)
    let rate := blinkRate eyh
    if 2/5 < fatigueRatio ∨ rate < 10 ∨ 45 < rate then 3
    else if 3/10 < fatigueRatio ∨ rate < 12 ∨ 40 < rate then 2
    else if 1/5 < fatigueRatio ∨ rate < 15 ∨ 35 < rate then 1
    else 0

/-- Number of `True` values in one frame's activation dict. -/
def countActive (acts : List (String × Bool)) : ℕ :=
  (acts.filter (fun p => p.2)).length

/-- Embeds `_assess_fatigue` (PHQ4). -/
def assessFatigue (ah : List AURecord) (th : List TemporalRecord) : ℕ :=
  let avgActivations : ℚ :=
    if ah.length ≠ 0 then
      ((ah.map (fun r => (countActive r.auActivations : ℚ))).sum) / (ah.length : ℚ)
    else 2
  let changeRate : ℚ :=
    match th.getLast? with
    | some r => r.emotionChangeRate
    | none => 1/5
  if avgActivations < 4/5 ∧ changeRate < 1/20 then 3
  else if avgActivations < 6/5 ∧ changeRate < 1/10 then 2
  else if avgActivations < 3/2 ∧ changeRate < 3/20 then 1
  else 0

/-- Embeds `_assess_appetite_change` (PHQ5): deliberately always 0. -/
def assessAppetiteChange : ℕ := 0

/-- Embeds `_assess_guilt` (PHQ6). -/
def assessGuilt (ah : List AURecord) : ℕ :=
  let guiltCount := ah.countP (fun r =>
    actLookup r.auActivations ("AU1") && actLookup r.auActivations ("AU4"))
  let guiltRatio : ℚ :=
    if ah.length ≠ 0 then (guiltCount : ℚ) / (ah.length : ℚ) else 0
  if 1/4 < guiltRatio then 3
  else if 3/20 < guiltRatio then 2
  else if 2/25 < guiltRatio then 1
  else 0

/-- Embeds `_assess_concentration` (PHQ7). -/
def assessConcentration (eyh : List EyeRecord) : ℕ :=
  if eyh.length = 0 then 0
  else
    let rate := blinkRate eyh
    if 50 < rate then 3
    else if 42 < rate then 2
    else if 35 < rate then 1
    else 0

/-- Embeds `_assess_psychomotor` (PHQ8). -/
def assessPsychomotor (th : List TemporalRecord) : ℕ :=
  let changeRate : ℚ :=
    match th.getLast? with | some r => r.emotionChangeRate | none => 1/5
  let microRate : ℚ :=
    match th.getLast? with | some r => r.microExpressionRate | none => 1/5
  if changeRate < 1/20 ∧ microRate < 1/20 then 3
  else if changeRate < 1/10 ∧ microRate < 1/10 then 2
  else if changeRate < 3/20 ∧ microRate < 3/20 then 1
  else 0

/-- Embeds `_assess_suicidal_ideation` (PHQ9, lines 383–399): the ratio of
high-confidence sad frames, scored 1 at most ("极其保守的评分"). -/
def assessSuicidalIdeation (eh : List EmotionRecord) : ℕ :=
  let extremeSadCount :=
    eh.countP (fun r => r.emotion == "sad" && decide (9/10 < r.confidence))
  let extremeSadRatio : ℚ := (extremeSadCount : ℚ) / (eh.length : ℚ)
  if 3/5 < extremeSadRatio then 1 else 0

/-- Embeds `_classify_severity`. -/
def classifySeverity (total : ℕ) : String :=
  if total ≤ 4 then ("none")
  else if total ≤ 9 then ("mild")
  else if total ≤ 14 then ("moderate")
  else if total ≤ 19 then ("moderately_severe")
  else ("severe")

/-- Embeds `_calculate_confidence` (lines 468–492). -/
def calculateConfidence (eh : List EmotionRecord) : ℚ :=
  let n := eh.length
  let dataFactor : ℚ :=
    if n < 300 then (n : ℚ) / 300
    else if n < 1800 then 1/2 + ((n : ℚ) - 300) / 1500 * (3/10)
    else 4/5 + min (((n : ℚ) - 1800) / 1800 * (1/5)) (1/5)
  let qualityFactor : ℚ :=
    if eh.length ≠ 0 then meanQ (eh.map (fun r => r.confidence)) else 1/2
  dataFactor * (3/5) + qualityFactor * (2/5)

/-- The numeric payload of a completed `assess` call. -/
structure Assessment where
  phq1 : ℕ
  phq2 : ℕ
  phq3 : ℕ
  phq4 : ℕ
  phq5 : ℕ
  phq6 : ℕ
  phq7 : ℕ
  phq8 : ℕ
  phq9 : ℕ
  totalScore : ℕ
  severity : String
  confidence : ℚ
  deriving Repr, DecidableEq

/-- Return value of `PHQ9Assessor.assess`: either the distinct
`insufficient_data` status or a scored assessment. -/
inductive Output where
  | insufficientData
  | result (a : Assessment)
  deriving Repr, DecidableEq

/-- Embeds `PHQ9Assessor.assess` (lines 140–201): the guard
`len(self.emotion_history) < 300` yields `insufficient_data`, otherwise
the nine items, their total, the severity class and the confidence. -/
def assess (eh : List EmotionRecord) (ah : List AURecord)
    (eyh : List EyeRecord) (th : List TemporalRecord) : Output :=
  if eh.length < 300 then .insufficientData
  else
    let i1 := assessAnhedonia eh ah
    let i2 := assessDepressedMood eh
    let i3 := assessSleepProblems eyh
    let i4 := assessFatigue ah th
    let i5 := assessAppetiteChange
    let i6 := assessGuilt ah
    let i7 := assessConcentration eyh
    let i8 := assessPsychomotor th
    let i9 := assessSuicidalIdeation eh
    let total := i1 + i2 + i3 + i4 + i5 + i6 + i7 + i8 + i9
    .result
      { phq1 := i1, phq2 := i2, phq3 := i3, phq4 := i4, phq5 := i5
        phq6 := i6, phq7 := i7, phq8 := i8, phq9 := i9
        totalScore := total
        severity := classifySeverity total
        confidence := calculateConfidence eh }

end PHQ9Assessor

namespace TemporalAnalyzer

/-! Embeds `temporal_analyzer.py`, class `TemporalFeatureAnalyzer`. -/

/-- One `emotion_history` record. -/
structure TRecord where
  emotion : String
  confidence : ℚ
  timestamp : ℚ
  deriving Repr, DecidableEq

/-- Embeds `emotion_polarity.get(emotion, 0)`. -/
def emotionPolarity (e : String) : ℚ :=
  if e = "happy" then 1
  else if e = "surprise" then 1/2
  else if e = "neutral" then 0
  else if e = "fear" then -3/10
  else if e = "disgust" then -1/2
  else if e = "angry" then -7/10
  else if e = "sad" then -1
  else 0

/-- Number of adjacent label changes. -/
def countChanges : List String → ℕ
  | a :: b :: rest => (if a = b then 0 else 1) + countChanges (b :: rest)
  | _ => 0

/-- Embeds `_calculate_change_rate`: changes per transition. -/
def changeRate (labels : List String) : ℚ :=
  if labels.length < 2 then 0
  else (countChanges labels : ℚ) / ((labels.length : ℚ) - 1)

/-- Maximal runs of one label, with their frame counts
(the `segments` of `_calculate_duration_stats`). -/
def runsAux (cur : String) (n : ℕ) : List String → List (String × ℕ)
  | [] => [(cur, n)]
  | e :: rest =>
    if e = cur then runsAux cur (n + 1) rest
    else (cur, n) :: runsAux e 1 rest

/-- Run-length segmentation of the label history. -/
def runs : List String → List (String × ℕ)
  | [] => []
  | e :: rest => runsAux e 1 rest

/-- Mean run length of the segments matching a label predicate, 0 when no
segment matches (`np.mean(...) if segments else 0.0`). -/
def meanRunLength (segs : List (String × ℕ)) (labelSet : List String) : ℚ :=
  let matching := segs.filter (fun s => labelSet.contains s.1)
  if matching.length ≠ 0 then meanQ (matching.map (fun s => (s.2 : ℚ)))
  else 0

/-- Embeds `np.var`: mean squared deviation from the mean. -/
def varianceQ (l : List ℚ) : ℚ :=
  let m := meanQ l
  meanQ (l.map (fun v => (v - m) * (v - m)))

/-- Embeds `_calculate_stability`: `1 / (1 + variance)` of the polarity signal. -/
def stability (labels : List String) : ℚ :=
  if labels.length < 2 then 0
  else 1 / (1 + varianceQ (labels.map emotionPolarity))

/-- Least-squares slope of `np.polyfit(arange(n), ys, 1)`. -/
def lsSlope (ys : List ℚ) : ℚ :=
  let n : ℚ := (ys.length : ℚ)
  let xs := (List.range ys.length).map (fun i => (i : ℚ))
  let sx := xs.sum
  let sy := ys.sum
  let sxx := (xs.map (fun x => x * x)).sum
  let sxy := ((xs.zip ys).map (fun p => p.1 * p.2)).sum
  (n * sxy - sx * sy) / (n * sxx - sx * sx)

/-- Embeds `_calculate_trend`: least-squares slope of the polarity signal over
the last `window` frames (clamped to the history length, 0 below 2). -/
def calculateTrend (window : ℕ) (labels : List String) : ℚ :=
  let w := if labels.length < window then labels.length else window
  if w < 2 then 0
  else lsSlope ((takeLast w labels).map emotionPolarity)

/-- Embeds `_analyze_micro_expressions`: segments shorter than 90 frames. -/
def microExpressionCount (labels : List String) : ℕ :=
  if labels.length < 2 then 0
  else ((runs labels).filter (fun s => s.2 < 90)).length

/-- Embeds `_analyze_micro_expressions`, `rate` field. -/
def microExpressionRate (labels : List String) : ℚ :=
  if labels.length < 2 then 0
  else
    let segs := runs labels
    if segs.length ≠ 0 then
      (((segs.filter (fun s => s.2 < 90)).length : ℚ)) / (segs.length : ℚ)
    else 0

/-- The numeric payload of a completed `analyze` call. -/
structure Features where
  emotionChangeRate : ℚ
  expressionDuration : ℚ
  positiveDuration : ℚ
  negativeDuration : ℚ
  emotionStability : ℚ
  shortTermTrend : ℚ
  longTermTrend : ℚ
  microExpressionCount : ℕ
  microExpressionRate : ℚ
  deriving Repr, DecidableEq

/-- Return value of `TemporalFeatureAnalyzer.analyze`. -/
inductive Output where
  | insufficientData
  | features (f : Features)
  deriving Repr, DecidableEq

/-- Embeds `_calculate_duration_stats`, `avg_duration` (zero below 2 frames). -/
def avgDuration (labels : List String) : ℚ :=
  if labels.length < 2 then 0
  else meanQ ((runs labels).map (fun s => (s.2 : ℚ)))

/-- Embeds `_calculate_duration_stats`, per-valence mean durations. -/
def valenceDuration (labels : List String) (labelSet : List String) : ℚ :=
  if labels.length < 2 then 0
  else meanRunLength (runs labels) labelSet

/-- Embeds `TemporalFeatureAnalyzer.analyze` (lines 95–139): the guard
`len(self.emotion_history) < self.short_window` yields the distinct
`insufficient_data` status, otherwise the time-series features. -/
def analyze (shortWindow longWindow : ℕ) (eh : List TRecord) : Output :=
  if eh.length < shortWindow then .insufficientData
  else
    let labels := eh.map (fun r => r.emotion)
    .features
      { emotionChangeRate := changeRate labels
        expressionDuration := avgDuration labels
        positiveDuration := valenceDuration labels ["happy", "surprise"]
        negativeDuration := valenceDuration labels ["sad", "angry", "fear", "disgust"]
        emotionStability := stability labels
        shortTermTrend := calculateTrend shortWindow labels
        longTermTrend := calculateTrend (min longWindow eh.length) labels
        microExpressionCount := microExpressionCount labels
        microExpressionRate := microExpressionRate labels }

end TemporalAnalyzer


section Helpers

/-- Length of a window push: the window grows by one frame, capped at `W`. -/
lemma pushWindow_length {α : Type} (W : ℕ) (w : List α) (x : α) :
    (pushWindow W w x).length = min (w.length + 1) W := by
  simp [pushWindow]
  omega

/-- Every element of a pushed window is an old element or the new frame. -/
lemma mem_pushWindow {α : Type} {W : ℕ} {w : List α} {x y : α}
    (h : y ∈ pushWindow W w x) : y ∈ w ∨ y = x := by
  have h2 : y ∈ w ++ [x] := List.mem_of_mem_drop h
  simpa using h2

/-- Pushing the constant a full window already holds leaves it unchanged. -/
lemma pushWindow_replicate {α : Type} (W : ℕ) (c : α) :
    pushWindow W (List.replicate W c) c = List.replicate W c := by
  unfold pushWindow
  rw [← List.replicate_succ', List.drop_replicate]
  congr 1
  simp

/-- A window with no `true` votes and at least two frames fails the
majority rule `count(active) >= len // 2`. -/
lemma majorityVote_false_of_allFalse {w : List Bool}
    (hcount : w.count true = 0) (hlen : 2 ≤ w.length) :
    majorityVote w = false := by
  simp only [majorityVote, hcount, decide_eq_false_iff_not]
  omega

/-- Pushing `false` onto an all-`false` window keeps the count at zero. -/
lemma pushWindow_count_true_zero {W : ℕ} {w : List Bool}
    (h : ∀ x ∈ w, x = false) : (pushWindow W w false).count true = 0 := by
  refine List.count_eq_zero.mpr ?_
  intro hmem
  rcases mem_pushWindow hmem with hw | hx
  · exact absurd (h true hw) (by simp)
  · exact absurd hx (by simp)

end Helpers

/-- C7: a PHQ-9 assessment with fewer than 300 recorded emotion frames,
and a temporal analysis with fewer than `short_window` frames, both
return the distinct `insufficient_data` status instead of numeric
scores. -/
theorem claim_C7_insufficient_history_status :
    (∀ (eh : List PHQ9Assessor.EmotionRecord) (ah : List PHQ9Assessor.AURecord)
        (eyh : List PHQ9Assessor.EyeRecord) (th : List PHQ9Assessor.TemporalRecord),
      eh.length < 300 →
        PHQ9Assessor.assess eh ah eyh th = PHQ9Assessor.Output.insufficientData)
    ∧ (∀ (shortWindow longWindow : ℕ) (eh : List TemporalAnalyzer.TRecord),
      eh.length < shortWindow →
        TemporalAnalyzer.analyze shortWindow longWindow eh
          = TemporalAnalyzer.Output.insufficientData) := by
  constructor
  · intro eh ah eyh th h
    simp [PHQ9Assessor.assess, h]
  · intro sw lw eh h
    simp [TemporalAnalyzer.analyze, h]

/-- Witness for C7 at the empty histories. -/
theorem claim_C7_witness :
    PHQ9Assessor.assess [] [] [] [] = PHQ9Assessor.Output.insufficientData
    ∧ TemporalAnalyzer.analyze 90 900 [] = TemporalAnalyzer.Output.insufficientData :=
  ⟨claim_C7_insufficient_history_status.1 [] [] [] [] (by norm_num),
   claim_C7_insufficient_history_status.2 90 900 [] (by norm_num)⟩

/-- C10: the PHQ-9 item-9 (suicidal ideation) sub-score of
`PHQ9Assessor._assess_suicidal_ideation` is 0 or 1 for every possible
emotion history — it never reaches 2 or 3, so item 9 contributes at most
one point to the total. -/
theorem claim_C10_item9_at_most_one (eh : List PHQ9Assessor.EmotionRecord) :
    PHQ9Assessor.assessSuicidalIdeation eh = 0
    ∨ PHQ9Assessor.assessSuicidalIdeation eh = 1 := by
  simp only [PHQ9Assessor.assessSuicidalIdeation]
  split_ifs <;> simp

/-- C8: majority-vote / mean smoothing is idempotent — when an AU's
smoothing window of capacity `W` is entirely filled with one constant
(activation, intensity) pair, pushing that same pair `W` more times
leaves the window, hence the smoothed activation (majority vote) and the
smoothed intensity (mean), unchanged. -/
theorem claim_C8_smoothing_idempotent (W : ℕ) (a : Bool) (i : ℚ) :
    (fun s : List Bool × List ℚ => (pushWindow W s.1 a, pushWindow W s.2 i))^[W]
        (List.replicate W a, List.replicate W i)
      = (List.replicate W a, List.replicate W i)
    ∧ majorityVote ((fun s : List Bool × List ℚ =>
          (pushWindow W s.1 a, pushWindow W s.2 i))^[W]
          (List.replicate W a, List.replicate W i)).1
      = majorityVote (List.replicate W a)
    ∧ meanQ ((fun s : List Bool × List ℚ =>
          (pushWindow W s.1 a, pushWindow W s.2 i))^[W]
          (List.replicate W a, List.replicate W i)).2
      = meanQ (List.replicate W i) := by
  have hfix :
      (fun s : List Bool × List ℚ => (pushWindow W s.1 a, pushWindow W s.2 i))
          (List.replicate W a, List.replicate W i)
        = (List.replicate W a, List.replicate W i) := by
    simp [pushWindow_replicate]
  have hiter :
      (fun s : List Bool × List ℚ => (pushWindow W s.1 a, pushWindow W s.2 i))^[W]
          (List.replicate W a, List.replicate W i)
        = (List.replicate W a, List.replicate W i) :=
    Function.iterate_fixed hfix W
  exact ⟨hiter, by rw [hiter], by rw [hiter]⟩

/-- Bounds for one clipped multiplicative nudge
`max lo (min v hi)` of a threshold `t` with `v` within 1% of `t`. -/
lemma clampStepBounds (lo hi v t : ℚ) (h1 : lo ≤ t) (h2 : t ≤ hi)
    (h3 : 99/100 * t ≤ v) (h4 : v ≤ 101/100 * t) (ht : 0 ≤ t) :
    (lo ≤ max lo (min v hi) ∧ max lo (min v hi) ≤ hi)
    ∧ 99/100 * t ≤ max lo (min v hi) ∧ max lo (min v hi) ≤ 101/100 * t := by
  refine ⟨⟨le_max_left _ _, max_le (h1.trans h2) (min_le_right _ _)⟩, ?_, ?_⟩
  · exact le_trans (le_min h3 (by linarith)) (le_max_right _ _)
  · exact max_le (by linarith) ((min_le_left _ _).trans h4)

/-- C9: one update of `_adapt_thresholds` keeps the threshold within
`[0.5, 2] ×` its initial value (assuming it was there before) and moves
it by a multiplicative factor between 0.99 and 1.01. -/
theorem claim_C9_threshold_adaptation_bounded (t0 t : ℚ) (n k : ℕ)
    (h0 : 0 < t0) (hlo : t0 * (1/2) ≤ t) (hhi : t ≤ t0 * 2) :
    (t0 * (1/2) ≤ AdvancedAUDetector.adaptThreshold t0 t n k
      ∧ AdvancedAUDetector.adaptThreshold t0 t n k ≤ t0 * 2)
    ∧ 99/100 * t ≤ AdvancedAUDetector.adaptThreshold t0 t n k
      ∧ AdvancedAUDetector.adaptThreshold t0 t n k ≤ 101/100 * t := by
  have ht : (0:ℚ) ≤ t := by nlinarith
  simp only [AdvancedAUDetector.adaptThreshold]
  split_ifs with hn h1 h2
  · exact ⟨⟨hlo, hhi⟩, by linarith, by linarith⟩
  · exact clampStepBounds _ _ _ t hlo hhi (by nlinarith) (by nlinarith) ht
  · exact clampStepBounds _ _ _ t hlo hhi (by nlinarith) (by nlinarith) ht
  · exact clampStepBounds _ _ _ t hlo hhi (by linarith) (by linarith) ht

/-- Witness for C9: one adaptation step from the initial AU12 threshold
0.03 with a 75% activation rate after 200 frames. -/
theorem claim_C9_witness :
    ((3:ℚ)/100 * (1/2) ≤ AdvancedAUDetector.adaptThreshold (3/100) (3/100) 200 150
      ∧ AdvancedAUDetector.adaptThreshold (3/100) (3/100) 200 150 ≤ (3:ℚ)/100 * 2)
    ∧ 99/100 * (3/100) ≤ AdvancedAUDetector.adaptThreshold (3/100) (3/100) 200 150
      ∧ AdvancedAUDetector.adaptThreshold (3/100) (3/100) 200 150 ≤ 101/100 * (3/100) :=
  claim_C9_threshold_adaptation_bounded (3/100) (3/100) 200 150
    (by norm_num) (by norm_num) (by norm_num)


/-- The relative deviation of a feature equal to its baseline is zero in
the basic detector. -/
lemma intensity_self (b : ℚ) : AUDetector.intensity b b = 0 := by
  unfold AUDetector.intensity
  split <;> simp

/-- The relative change of a feature equal to its baseline is zero in
the advanced detector. -/
lemma relativeChange_self (b : ℚ) : AdvancedAUDetector.relativeChange b b = 0 := by
  unfold AdvancedAUDetector.relativeChange
  split <;> simp

/-- The staircase maps a zero deviation to intensity level 0. -/
lemma calculateIntensity_zero : AdvancedAUDetector.calculateIntensity |(0:ℚ)| = 0 := by
  norm_num [AdvancedAUDetector.calculateIntensity]

/-- C5 (confirmed): whenever the genuineness analyzer handles the happy
label with AU6 and AU12 both active at intensity ≥ 3, an emotion
duration inside [0.5 s, 4 s], and a smooth onset/offset (the recorded
AU12 deltas pass `_check_onset_naturalness`), the smile is reported
genuine with score at least 0.6. -/
theorem claim_C5_genuine_smile (au : List (String × GenuineEmotionDetector.AUEntry))
    (dur : ℚ) (au12Hist : List ℚ)
    (h6 : GenuineEmotionDetector.getActive au ("AU6") = true)
    (h12 : GenuineEmotionDetector.getActive au ("AU12") = true)
    (hi6 : 3 ≤ GenuineEmotionDetector.getIntensity au ("AU6"))
    (hi12 : 3 ≤ GenuineEmotionDetector.getIntensity au ("AU12"))
    (hd1 : 1/2 ≤ dur) (hd2 : dur ≤ 4)
    (hon : GenuineEmotionDetector.onsetNaturalness au12Hist = true) :
    (GenuineEmotionDetector.analyzeSmileGenuineness au dur au12Hist).isGenuine = true
    ∧ 3/5 ≤ (GenuineEmotionDetector.analyzeSmileGenuineness au dur au12Hist).genuinenessScore := by
  have hdo :
      (if 0 < dur then decide (1/2 ≤ dur ∧ dur ≤ 4) else true) = true := by
    rw [if_pos (by linarith)]
    exact decide_eq_true ⟨hd1, hd2⟩
  have hscore :
      3/5 ≤ (GenuineEmotionDetector.analyzeSmileGenuineness au dur au12Hist).genuinenessScore := by
    simp only [GenuineEmotionDetector.analyzeSmileGenuineness, h6, h12, hon, hdo,
      Bool.and_self, if_true]
    split_ifs <;> norm_num
  refine ⟨?_, hscore⟩
  have hsc2 :
      (GenuineEmotionDetector.analyzeSmileGenuineness au dur au12Hist).isGenuine
        = decide (3/5 ≤ (GenuineEmotionDetector.analyzeSmileGenuineness au dur au12Hist).genuinenessScore) := by
    simp only [GenuineEmotionDetector.analyzeSmileGenuineness]
  rw [hsc2]
  exact decide_eq_true hscore

/-- Witness for C5: AU6 and AU12 active with intensity 3, duration 1 s,
and an empty AU12 intensity history (trivially smooth). -/
theorem claim_C5_witness :
    (GenuineEmotionDetector.analyzeSmileGenuineness
        [("AU6", ⟨true, 3⟩), ("AU12", ⟨true, 3⟩)] 1 []).isGenuine = true
    ∧ 3/5 ≤ (GenuineEmotionDetector.analyzeSmileGenuineness
        [("AU6", ⟨true, 3⟩), ("AU12", ⟨true, 3⟩)] 1 []).genuinenessScore :=
  claim_C5_genuine_smile [("AU6", ⟨true, 3⟩), ("AU12", ⟨true, 3⟩)] 1 []
    (by norm_num +decide [GenuineEmotionDetector.getActive, assocLookup])
    (by norm_num +decide [GenuineEmotionDetector.getActive, assocLookup])
    (by norm_num +decide [GenuineEmotionDetector.getIntensity, assocLookup])
    (by norm_num +decide [GenuineEmotionDetector.getIntensity, assocLookup])
    (by norm_num) (by norm_num)
    (by norm_num [GenuineEmotionDetector.onsetNaturalness])

/-- C6 counterexample: the basic detector guards only a baseline of
exactly zero, not an epsilon floor — at baseline 1e-8 the computed
intensity is about 1e8, exceeding the bound `|feature - baseline| * 1e6`
that an epsilon floor of 1e-6 would enforce. -/
theorem claim_C6_counterexample :
    AUDetector.intensity 1 (1/100000000) = 99999999
    ∧ |1 - (1:ℚ)/100000000| * 1000000 < AUDetector.intensity 1 (1/100000000) := by
  have h : AUDetector.intensity 1 (1/100000000) = 99999999 := by
    rw [AUDetector.intensity, if_pos (by norm_num), abs_of_pos (by norm_num)]
    norm_num
  refine ⟨h, ?_⟩
  rw [h, abs_of_pos (by norm_num)]
  norm_num

/-- C6 (amended): the advanced detector's near-zero guard
(`abs(baseline) > 1e-6`, else 0) keeps the relative change bounded by
`|feature - baseline| * 1e6`; the basic detector has no such floor — its
intensity at feature 1 grows beyond every bound as the non-zero baseline
approaches 0. -/
theorem claim_C6_epsilon_guard :
    (∀ f b : ℚ, |AdvancedAUDetector.relativeChange f b| ≤ |f - b| * 1000000)
    ∧ (∀ M : ℚ, ∃ b : ℚ, b ≠ 0 ∧ |b| ≤ 1/1000000 ∧ M < AUDetector.intensity 1 b) := by
  constructor
  · intro f b
    unfold AdvancedAUDetector.relativeChange
    split_ifs with h
    · rw [abs_div, abs_abs]
      have hb : 0 < |b| := lt_trans (by norm_num) h
      rw [div_le_iff hb]
      nlinarith [abs_nonneg (f - b)]
    · simp only [abs_zero]
      positivity
  · intro M
    have hmax : M ≤ max M 0 := le_max_left M 0
    have hmax0 : 0 ≤ max M 0 := le_max_right M 0
    have hD : (0:ℚ) < max M 0 + 1000001 := by linarith
    have hbpos : (0:ℚ) < 1 / (max M 0 + 1000001) := div_pos one_pos hD
    refine ⟨1 / (max M 0 + 1000001), ne_of_gt hbpos, ?_, ?_⟩
    · rw [abs_of_pos hbpos, div_le_div_iff hD (by norm_num)]
      linarith
    · rw [AUDetector.intensity, if_pos (ne_of_gt hbpos), abs_of_pos hbpos]
      have hrw : (1 - 1 / (max M 0 + 1000001)) / (1 / (max M 0 + 1000001))
          = max M 0 + 1000000 := by
        field_simp
        ring
      rw [hrw]
      linarith

/-- C3 counterexample: with the smoothing windows still full of earlier
activated frames, a frame whose features equal the calibrated baseline
has raw intensity 0, yet the result reports the smoothed activation as
`true` (both detectors) and, in the advanced detector, a smoothed
intensity of 30/7 rather than 0. -/
theorem claim_C3_counterexample :
    (AUDetector.detectStep (8/100) 1 1 [true, true, true, true, true]).2.1 = 0
    ∧ (AUDetector.detectStep (8/100) 1 1 [true, true, true, true, true]).1 = true
    ∧ (AdvancedAUDetector.detectStep 7 (4/100) 1 1
        [5, 5, 5, 5, 5, 5, 5] [true, true, true, true, true, true, true]).intensity = 30/7
    ∧ (AdvancedAUDetector.detectStep 7 (4/100) 1 1
        [5, 5, 5, 5, 5, 5, 5] [true, true, true, true, true, true, true]).activated = true := by
  refine ⟨?_, ?_, ?_, ?_⟩ <;>
    norm_num +decide [AUDetector.detectStep, AUDetector.intensity,
      AdvancedAUDetector.detectStep, AdvancedAUDetector.relativeChange,
      AdvancedAUDetector.calculateIntensity, pushWindow, majorityVote, meanQ]

/-- C3 (amended): at a frame whose features equal the calibrated
baseline the raw relative deviation, raw intensity and raw activation
are all zero/false in both detectors; the *smoothed* outputs reported in
the result are also false/0 provided the smoothing window holds at least
one earlier frame and every windowed frame was itself baseline-equal
(all-false activations, all-zero intensities; for the advanced detector
a window capacity of at least 2). -/
theorem claim_C3_baseline_zero :
    (∀ (t b : ℚ) (hist : List Bool), 0 ≤ t →
      (∀ x ∈ hist, x = false) → 1 ≤ hist.length →
      (AUDetector.detectStep t b b hist).2.1 = 0
      ∧ (AUDetector.detectStep t b b hist).1 = false)
    ∧ (∀ (W : ℕ) (t b : ℚ) (intHist : List ℚ) (actHist : List Bool),
      0 ≤ t → 2 ≤ W → (∀ x ∈ intHist, x = 0) →
      (∀ x ∈ actHist, x = false) → 1 ≤ actHist.length →
      (AdvancedAUDetector.detectStep W t b b intHist actHist).rawIntensity = 0
      ∧ (AdvancedAUDetector.detectStep W t b b intHist actHist).intensity = 0
      ∧ (AdvancedAUDetector.detectStep W t b b intHist actHist).activated = false) := by
  constructor
  · intro t b hist ht hall hlen
    have hdec : (decide (t < |AUDetector.intensity b b|)) = false := by
      rw [intensity_self b]
      simpa using not_lt.mpr ht
    constructor
    · simp [AUDetector.detectStep, intensity_self b]
    · simp only [AUDetector.detectStep, hdec]
      apply majorityVote_false_of_allFalse (pushWindow_count_true_zero hall)
      rw [pushWindow_length]
      omega
  · intro W t b intHist actHist ht hW hint hact hlen
    have hdec : (decide (t < |AdvancedAUDetector.relativeChange b b|)) = false := by
      rw [relativeChange_self b]
      simpa using not_lt.mpr ht
    have hraw :
        AdvancedAUDetector.calculateIntensity |AdvancedAUDetector.relativeChange b b| = 0 := by
      rw [relativeChange_self b]
      exact calculateIntensity_zero
    refine ⟨?_, ?_, ?_⟩
    · simp [AdvancedAUDetector.detectStep, hraw]
    · simp only [AdvancedAUDetector.detectStep, hraw]
      have hzero : ∀ x ∈ pushWindow W intHist 0, x = (0:ℚ) := by
        intro x hx
        rcases mem_pushWindow hx with hw | hx0
        · exact hint x hw
        · exact hx0
      simp [meanQ, List.sum_eq_zero hzero]
    · simp only [AdvancedAUDetector.detectStep, hdec]
      apply majorityVote_false_of_allFalse (pushWindow_count_true_zero hact)
      rw [pushWindow_length]
      omega

/-- Witness for C3 (amended) with a one-frame all-baseline window in
each detector. -/
theorem claim_C3_witness :
    ((AUDetector.detectStep (8/100) 1 1 [false]).2.1 = 0
      ∧ (AUDetector.detectStep (8/100) 1 1 [false]).1 = false)
    ∧ ((AdvancedAUDetector.detectStep 7 (4/100) 1 1 [0] [false]).rawIntensity = 0
      ∧ (AdvancedAUDetector.detectStep 7 (4/100) 1 1 [0] [false]).intensity = 0
      ∧ (AdvancedAUDetector.detectStep 7 (4/100) 1 1 [0] [false]).activated = false) :=
  ⟨claim_C3_baseline_zero.1 (8/100) 1 [false] (by norm_num) (by simp) (by norm_num),
   claim_C3_baseline_zero.2 7 (4/100) 1 [0] [false] (by norm_num) (by norm_num)
     (by simp) (by simp) (by norm_num)⟩


/-- C1 counterexample: a concrete input on which the medical assessor
gives a suicidal-thoughts sub-score of 1 while nothing forces the
severity away from the total-score band — the severity is `'minimal'`,
not `'severe'`.  (High-confidence sad emotion; a Duchenne smile with
AU6/AU12 at intensity 2 keeps the other items low; total score 4.) -/
theorem claim_C1_counterexample :
    1 ≤ (MedicalAssessor.calculateScores ⟨"sad", 9/10⟩
        ⟨[("AU6", ⟨true, 2⟩), ("AU12", ⟨true, 2⟩), ("AU2", ⟨true, 1⟩)], 0⟩
        ⟨0, 15, 1, 0⟩ ⟨true, 0, true⟩ []).suicidalThoughts
    ∧ MedicalAssessor.determineSeverity
        (MedicalAssessor.totalScore (MedicalAssessor.calculateScores ⟨"sad", 9/10⟩
          ⟨[("AU6", ⟨true, 2⟩), ("AU12", ⟨true, 2⟩), ("AU2", ⟨true, 1⟩)], 0⟩
          ⟨0, 15, 1, 0⟩ ⟨true, 0, true⟩ [])) ≠ "severe" := by
  constructor <;>
    norm_num +decide [MedicalAssessor.totalScore, MedicalAssessor.calculateScores,
      MedicalAssessor.assessAnhedonia, MedicalAssessor.assessDepressedMood,
      MedicalAssessor.assessSleepProblems, MedicalAssessor.assessFatigue,
      MedicalAssessor.assessSelfWorth, MedicalAssessor.assessConcentration,
      MedicalAssessor.assessPsychomotor, MedicalAssessor.assessSuicidalRisk,
      MedicalAssessor.auActive, MedicalAssessor.auIntensity,
      MedicalAssessor.activeAUCount, MedicalAssessor.weightedTotal,
      MedicalAssessor.maxWeighted, MedicalAssessor.determineSeverity,
      assocLookup, takeLast, Int.floor_eq_iff]

/-- C1 (amended): in `MedicalGradeClinicalAssessor` a non-zero
suicidal-thoughts sub-score does not change the severity tier (which
follows the fixed total-score bands alone); instead it always forces the
crisis-hotline warning into the generated recommendations. -/
theorem claim_C1_selfharm_forces_crisis_warning
    (e : MedicalAssessor.EmotionInput) (a : MedicalAssessor.AUInput)
    (eye : MedicalAssessor.EyeInput) (g : MedicalAssessor.GenuinenessInput)
    (hist : List String) (trend : String) (concealedDetected : Bool)
    (h : 1 ≤ (MedicalAssessor.calculateScores e a eye g hist).suicidalThoughts) :
    MedicalAssessor.suicideWarning ∈
      MedicalAssessor.generateRecommendations
        (MedicalAssessor.calculateScores e a eye g hist)
        (MedicalAssessor.determineSeverity
          (MedicalAssessor.totalScore (MedicalAssessor.calculateScores e a eye g hist)))
        trend concealedDetected := by
  unfold MedicalAssessor.generateRecommendations
  rw [if_pos h]
  simp [MedicalAssessor.suicideWarning]

/-- Witness for C1 (amended) at the C1 counterexample input. -/
theorem claim_C1_witness :
    MedicalAssessor.suicideWarning ∈
      MedicalAssessor.generateRecommendations
        (MedicalAssessor.calculateScores ⟨"sad", 9/10⟩
          ⟨[("AU6", ⟨true, 2⟩), ("AU12", ⟨true, 2⟩), ("AU2", ⟨true, 1⟩)], 0⟩
          ⟨0, 15, 1, 0⟩ ⟨true, 0, true⟩ [])
        (MedicalAssessor.determineSeverity
          (MedicalAssessor.totalScore (MedicalAssessor.calculateScores ⟨"sad", 9/10⟩
            ⟨[("AU6", ⟨true, 2⟩), ("AU12", ⟨true, 2⟩), ("AU2", ⟨true, 1⟩)], 0⟩
            ⟨0, 15, 1, 0⟩ ⟨true, 0, true⟩ [])))
        "stable" false :=
  claim_C1_selfharm_forces_crisis_warning ⟨"sad", 9/10⟩
    ⟨[("AU6", ⟨true, 2⟩), ("AU12", ⟨true, 2⟩), ("AU2", ⟨true, 1⟩)], 0⟩
    ⟨0, 15, 1, 0⟩ ⟨true, 0, true⟩ [] "stable" false
    (by norm_num +decide [MedicalAssessor.calculateScores,
      MedicalAssessor.assessSuicidalRisk, MedicalAssessor.activeAUCount])

/-- C4 counterexample: the code keys on the labels `'happiness'` and
`'sadness'`, not `'happy'` and `'sad'` — with macro label `'happy'` and
one micro event labelled `'sad'`, both concealed-depression detectors
compute an inconsistency score of exactly 0, not > 0. -/
theorem claim_C4_counterexample :
    (GenuineEmotionDetector.detectConcealedDepression ("happy")
      [⟨"sad"⟩]).inconsistencyScore = 0
    ∧ MedicalAssessor.detectConcealedScore ⟨"happy", 1⟩ [⟨"sad"⟩]
      ⟨true, 0, false⟩ = 0 := by
  constructor
  · norm_num +decide [GenuineEmotionDetector.detectConcealedDepression,
      GenuineEmotionDetector.negativeMicroKeys, GenuineEmotionDetector.countEmotion]
  · norm_num +decide [MedicalAssessor.detectConcealedScore]

/-- C4 (amended): with the labels the detectors actually test —
macro label `'happiness'` or `'neutral'` and at least one micro event
labelled `'sadness'` or `'fear'` — the inconsistency score of
`GenuineEmotionDetector.detect_concealed_depression` is strictly
positive, and so is the medical assessor's score (given a non-negative
fake probability). -/
theorem claim_C4_concealed_inconsistency_positive
    (macroEmotion : String) (micros : List GenuineEmotionDetector.MicroEvent)
    (e : MedicalAssessor.EmotionInput) (g : MedicalAssessor.GenuinenessInput)
    (hmac : macroEmotion = "happiness" ∨ macroEmotion = "neutral")
    (hmic : ∃ m ∈ micros, m.emotion = "sadness" ∨ m.emotion = "fear")
    (hfake : 0 ≤ g.fakeProbability) (he : e.emotion = macroEmotion) :
    0 < (GenuineEmotionDetector.detectConcealedDepression macroEmotion
          micros).inconsistencyScore
    ∧ 0 < MedicalAssessor.detectConcealedScore e micros g := by
  obtain ⟨m, hm, hcase⟩ := hmic
  have hlen : 0 < micros.length := List.length_pos.mpr (List.ne_nil_of_mem hm)
  constructor
  · have hkeyneg : m.emotion ∈ GenuineEmotionDetector.negativeMicroKeys := by
      rcases hcase with h | h <;> simp [GenuineEmotionDetector.negativeMicroKeys, h]
    have hcount : 0 < GenuineEmotionDetector.countEmotion micros m.emotion :=
      List.countP_pos_iff.mpr ⟨m, hm, by simp⟩
    have hmemfilter : m.emotion ∈ GenuineEmotionDetector.negativeMicroKeys.filter
        (fun k => 0 < GenuineEmotionDetector.countEmotion micros k) :=
      List.mem_filter.mpr ⟨hkeyneg, by simpa using hcount⟩
    simp only [GenuineEmotionDetector.detectConcealedDepression, if_pos hmac,
      if_pos hlen]
    have hmemmap :
        GenuineEmotionDetector.countEmotion micros m.emotion ∈
          (GenuineEmotionDetector.negativeMicroKeys.filter
            (fun k => 0 < GenuineEmotionDetector.countEmotion micros k)).map
            (GenuineEmotionDetector.countEmotion micros) :=
      List.mem_map_of_mem _ hmemfilter
    have hsum : GenuineEmotionDetector.countEmotion micros m.emotion ≤
        ((GenuineEmotionDetector.negativeMicroKeys.filter
          (fun k => 0 < GenuineEmotionDetector.countEmotion micros k)).map
          (GenuineEmotionDetector.countEmotion micros)).sum :=
      List.single_le_sum (fun _ _ => Nat.zero_le _) _ hmemmap
    apply div_pos
    · exact_mod_cast lt_of_lt_of_le hcount hsum
    · exact_mod_cast hlen
  · have hneg : 0 < micros.countP (fun m => m.emotion == "sadness"
        || m.emotion == "fear" || m.emotion == "anger") := by
      refine List.countP_pos_iff.mpr ⟨m, hm, ?_⟩
      rcases hcase with h | h <;> simp [h]
    have hcond : (e.emotion = "happiness" ∨ e.emotion = "neutral") ∧
        0 < micros.countP (fun m => m.emotion == "sadness" || m.emotion == "fear"
          || m.emotion == "anger") := ⟨by rw [he]; exact hmac, hneg⟩
    simp only [MedicalAssessor.detectConcealedScore]
    rw [if_pos hcond]
    split_ifs <;> nlinarith [hfake]

/-- Witness for C4 (amended): macro `'happiness'` with one `'sadness'`
micro event and a genuine, zero-fake-probability verdict. -/
theorem claim_C4_witness :
    0 < (GenuineEmotionDetector.detectConcealedDepression ("happiness")
          [⟨"sadness"⟩]).inconsistencyScore
    ∧ 0 < MedicalAssessor.detectConcealedScore ⟨"happiness", 1⟩ [⟨"sadness"⟩]
          ⟨true, 0, false⟩ :=
  claim_C4_concealed_inconsistency_positive "happiness" [⟨"sadness"⟩]
    ⟨"happiness", 1⟩ ⟨true, 0, false⟩ (Or.inl rfl)
    ⟨⟨"sadness"⟩, by simp, Or.inl rfl⟩ (le_refl 0) rfl


/-- Expansion of an emotion-dict sum over the seven fixed keys. -/
lemma sumOver_emotions (f : String → ℚ) :
    EmotionRecognizer.sumOver EmotionRecognizer.EMOTIONS f
      = f ("angry") + f ("disgust") + f ("fear") + f ("happy") + f ("sad")
        + f ("surprise") + f ("neutral") := by
  simp [EmotionRecognizer.sumOver, EmotionRecognizer.EMOTIONS]
  ring

/-- Pointwise: one `+=` update keeps a non-negative score dict
non-negative. -/
lemma addScore_apply_nonneg {f : String → ℚ} {k : String} {v : ℚ} {y : String}
    (hf : ∀ z, 0 ≤ f z) (hv : 0 ≤ v) : 0 ≤ EmotionRecognizer.addScore f k v y := by
  unfold EmotionRecognizer.addScore
  split
  · exact add_nonneg (hf y) hv
  · exact hf y

/-- The micro-expression score dict is non-negative. -/
lemma microScores_nonneg (micro : List String) :
    ∀ y, 0 ≤ EmotionRecognizer.microScores micro y := by
  induction micro with
  | nil =>
    intro y
    simp [EmotionRecognizer.microScores]
  | cons expr rest ih =>
    intro y
    cases hm : EmotionRecognizer.expressionEmotionMap expr with
    | none => simpa [EmotionRecognizer.microScores, hm] using ih y
    | some mapped =>
      simp only [EmotionRecognizer.microScores, hm]
      exact addScore_apply_nonneg ih (by norm_num)

/-- The AU-rule score dict is non-negative. -/
lemma auScores_nonneg (act : String → Bool) (micro : List String) :
    ∀ y, 0 ≤ EmotionRecognizer.auScores act micro y := by
  have h0 : ∀ y, 0 ≤ EmotionRecognizer.microScores micro y := microScores_nonneg micro
  simp only [EmotionRecognizer.auScores]
  set s0 := EmotionRecognizer.microScores micro with hs0def
  set s1 := (if act ("AU6") && act ("AU12") then EmotionRecognizer.addScore s0 ("happy") (2/5)
    else if act ("AU12") then EmotionRecognizer.addScore s0 ("happy") (1/5)
    else s0) with hs1def
  have h1 : ∀ y, 0 ≤ s1 y := by
    intro y
    rw [hs1def]
    split_ifs
    · exact addScore_apply_nonneg h0 (by norm_num)
    · exact addScore_apply_nonneg h0 (by norm_num)
    · exact h0 y
  set s2 := (if act ("AU1") && act ("AU15") then EmotionRecognizer.addScore s1 ("sad") (2/5)
    else s1) with hs2def
  have h2 : ∀ y, 0 ≤ s2 y := by
    intro y
    rw [hs2def]
    split_ifs
    · exact addScore_apply_nonneg h1 (by norm_num)
    · exact h1 y
  set s3 := (if act ("AU4") then EmotionRecognizer.addScore s2 ("sad") (1/10)
    else s2) with hs3def
  have h3 : ∀ y, 0 ≤ s3 y := by
    intro y
    rw [hs3def]
    split_ifs
    · exact addScore_apply_nonneg h2 (by norm_num)
    · exact h2 y
  set s4 := (if act ("AU4") && act ("AU7") then EmotionRecognizer.addScore s3 ("angry") (2/5)
    else s3) with hs4def
  have h4 : ∀ y, 0 ≤ s4 y := by
    intro y
    rw [hs4def]
    split_ifs
    · exact addScore_apply_nonneg h3 (by norm_num)
    · exact h3 y
  set s5 := (if act ("AU9") && act ("AU7") then EmotionRecognizer.addScore s4 ("disgust") (2/5)
    else if act ("AU9") then EmotionRecognizer.addScore s4 ("disgust") (1/5)
    else s4) with hs5def
  have h5 : ∀ y, 0 ≤ s5 y := by
    intro y
    rw [hs5def]
    split_ifs
    · exact addScore_apply_nonneg h4 (by norm_num)
    · exact addScore_apply_nonneg h4 (by norm_num)
    · exact h4 y
  set s6 := (if 3 ≤ EmotionRecognizer.boolSum [act ("AU1"), act ("AU2"), act ("AU5"), act ("AU20")]
      then EmotionRecognizer.addScore s5 ("fear") (2/5)
    else if 2 ≤ EmotionRecognizer.boolSum [act ("AU1"), act ("AU2"), act ("AU5"), act ("AU20")]
      then EmotionRecognizer.addScore s5 ("fear") (1/5)
    else s5) with hs6def
  have h6 : ∀ y, 0 ≤ s6 y := by
    intro y
    rw [hs6def]
    split_ifs
    · exact addScore_apply_nonneg h5 (by norm_num)
    · exact addScore_apply_nonneg h5 (by norm_num)
    · exact h5 y
  intro y
  split_ifs
  · exact addScore_apply_nonneg h6 (by norm_num)
  · exact addScore_apply_nonneg h6 (by norm_num)
  · exact h6 y

/-- An individual AU-rule score never exceeds the total over all seven
emotions. -/
lemma auScores_le_total (act : String → Bool) (micro : List String)
    (e : String) (he : e ∈ EmotionRecognizer.EMOTIONS) :
    EmotionRecognizer.auScores act micro e
      ≤ EmotionRecognizer.sumOver EmotionRecognizer.EMOTIONS
          (EmotionRecognizer.auScores act micro) := by
  have hn := auScores_nonneg act micro
  rw [sumOver_emotions]
  simp only [EmotionRecognizer.EMOTIONS, List.mem_cons, List.mem_singleton,
    List.not_mem_nil, or_false] at he
  rcases he with rfl | rfl | rfl | rfl | rfl | rfl | rfl <;>
    linarith [hn ("angry"), hn ("disgust"), hn ("fear"), hn ("happy"),
      hn ("sad"), hn ("surprise"), hn ("neutral")]

/-- Probabilities of the AU-rule path sum to exactly 1. -/
lemma auProbabilities_sum (act : String → Bool) (micro : List String) :
    EmotionRecognizer.sumOver EmotionRecognizer.EMOTIONS
      (EmotionRecognizer.auProbabilities act micro) = 1 := by
  simp only [EmotionRecognizer.auProbabilities]
  split_ifs with h
  · have hne : EmotionRecognizer.sumOver EmotionRecognizer.EMOTIONS
        (EmotionRecognizer.auScores act micro) ≠ 0 := ne_of_gt h
    rw [sumOver_emotions] at hne
    simp only [sumOver_emotions]
    field_simp
  · simp only [sumOver_emotions]
    norm_num +decide

/-- C2 counterexample: the simple-rule fallback path emits a
"distribution" whose values sum to 19/25 = 0.76 when the label is
`'happy'` (mean brightness 200), nowhere near 1 ± 1e-6. -/
theorem claim_C2_counterexample :
    EmotionRecognizer.sumOver EmotionRecognizer.EMOTIONS
      (EmotionRecognizer.simpleRuleProbabilities 200) = 19/25
    ∧ 1/1000000 < |EmotionRecognizer.sumOver EmotionRecognizer.EMOTIONS
        (EmotionRecognizer.simpleRuleProbabilities 200) - 1| := by
  have h : EmotionRecognizer.sumOver EmotionRecognizer.EMOTIONS
      (EmotionRecognizer.simpleRuleProbabilities 200) = 19/25 := by
    norm_num +decide [EmotionRecognizer.sumOver, EmotionRecognizer.EMOTIONS,
      EmotionRecognizer.simpleRuleProbabilities, EmotionRecognizer.simpleRuleEmotion,
      EmotionRecognizer.setScore]
  refine ⟨h, ?_⟩
  rw [h, show (19:ℚ)/25 - 1 = -(6/25) by norm_num, abs_neg,
    abs_of_pos (by norm_num)]
  norm_num

/-- C2 (amended): the AU-rule path does emit a probability distribution
(sums to exactly 1, each value in [0,1]); the simple-rule fallback emits
values in [0,1] whose sum is 4/25 (label `'neutral'`) or 19/25 (label
`'happy'`/`'sad'`), violating the sum-to-1 invariant; the fused path is
the fixed convex combination, so its total is `0.7 × (model total) +
0.3` and it sums to 1 exactly when the external model distribution
does. -/
theorem claim_C2_distributions :
    (∀ (act : String → Bool) (micro : List String),
      EmotionRecognizer.sumOver EmotionRecognizer.EMOTIONS
        (EmotionRecognizer.auProbabilities act micro) = 1)
    ∧ (∀ (act : String → Bool) (micro : List String) (e : String),
        e ∈ EmotionRecognizer.EMOTIONS →
        0 ≤ EmotionRecognizer.auProbabilities act micro e
        ∧ EmotionRecognizer.auProbabilities act micro e ≤ 1)
    ∧ (∀ m : ℚ,
        (∀ e, e ∈ EmotionRecognizer.EMOTIONS →
          0 ≤ EmotionRecognizer.simpleRuleProbabilities m e
          ∧ EmotionRecognizer.simpleRuleProbabilities m e ≤ 1)
        ∧ EmotionRecognizer.sumOver EmotionRecognizer.EMOTIONS
            (EmotionRecognizer.simpleRuleProbabilities m)
          = (if EmotionRecognizer.simpleRuleEmotion m = "neutral"
              then 4/25 else 19/25))
    ∧ (∀ (modelProbs : String → ℚ) (act : String → Bool) (micro : List String),
        EmotionRecognizer.sumOver EmotionRecognizer.EMOTIONS
          (EmotionRecognizer.fusedProbabilities modelProbs act micro)
        = EmotionRecognizer.sumOver EmotionRecognizer.EMOTIONS modelProbs * (7/10)
          + 3/10) := by
  refine ⟨auProbabilities_sum, ?_, ?_, ?_⟩
  · intro act micro e he
    have hn := auScores_nonneg act micro
    have hle := auScores_le_total act micro e he
    simp only [EmotionRecognizer.auProbabilities]
    split_ifs with h
    · exact ⟨div_nonneg (hn e) (le_of_lt h), by rw [div_le_one h]; exact hle⟩
    · by_cases he2 : e = "neutral" <;> simp [he2]
  · intro m
    have hcases : EmotionRecognizer.simpleRuleEmotion m = "happy"
        ∨ EmotionRecognizer.simpleRuleEmotion m = "sad"
        ∨ EmotionRecognizer.simpleRuleEmotion m = "neutral" := by
      unfold EmotionRecognizer.simpleRuleEmotion
      split_ifs <;> simp
    constructor
    · intro e he
      simp only [EmotionRecognizer.EMOTIONS, List.mem_cons, List.mem_singleton,
        List.not_mem_nil, or_false] at he
      simp only [EmotionRecognizer.simpleRuleProbabilities, EmotionRecognizer.setScore]
      rcases hcases with hl | hl | hl <;> rw [hl] <;>
        rcases he with rfl | rfl | rfl | rfl | rfl | rfl | rfl <;>
          norm_num +decide
    · simp only [EmotionRecognizer.simpleRuleProbabilities, EmotionRecognizer.setScore,
        sumOver_emotions]
      rcases hcases with hl | hl | hl <;> rw [hl] <;> norm_num +decide
  · intro modelProbs act micro
    have hp := auProbabilities_sum act micro
    rw [sumOver_emotions] at hp
    simp only [EmotionRecognizer.fusedProbabilities, sumOver_emotions]
    linarith

/-- Witness for C2 (amended): the AU-rule probabilities with only AU12
active, evaluated at `'happy'`, and the simple-rule bounds at mean
brightness 200 and key `'happy'`. -/
theorem claim_C2_witness :
    (0 ≤ EmotionRecognizer.auProbabilities (fun a => a == "AU12") [] ("happy")
      ∧ EmotionRecognizer.auProbabilities (fun a => a == "AU12") [] ("happy") ≤ 1)
    ∧ (0 ≤ EmotionRecognizer.simpleRuleProbabilities 200 ("happy")
      ∧ EmotionRecognizer.simpleRuleProbabilities 200 ("happy") ≤ 1) :=
  ⟨claim_C2_distributions.2.1 (fun a => a == "AU12") [] ("happy")
      (by norm_num [EmotionRecognizer.EMOTIONS]),
   (claim_C2_distributions.2.2.1 200).1 ("happy")
      (by norm_num [EmotionRecognizer.EMOTIONS])⟩
